import Mathlib

/-!
Shallow embedding of the ot-sca capture/communication core:
`target/communication/sca_ml_dsa_commands.py` (class OTMLDSA) and
`capture/scopes/chipwhisperer/husky.py` (class Husky).

Python strings are modelled as `List Char`, the serial line stream as a
`List (List Char)` (a `readline` past the end of the list yields an empty
line, modelling a read timeout), Python `while` loops as fuel-indexed
structural recursions whose fuel is chosen large enough to cover every
reachable iteration, and Python float arithmetic as exact rational
arithmetic.  The Python standard-library collaborators `json.loads` /
`json.dumps` (declared out of scope by the design, used only through
their interface) are modelled by an executable parser / printer for the
JSON fragment the protocol uses (null, booleans, integers, escape-free
strings, arrays, objects).
-/

/-- Python substring test `pat in s` on character lists. -/
def hasSub : List Char → List Char → Bool
  | [], pat => pat.isEmpty
  | s@(_ :: rest), pat => pat.isPrefixOf s || hasSub rest pat

/-- Python `str.split(sep)` worker: scans `s` left to right, emitting the
accumulated chunk each time `sep` occurs.  The fuel is an upper bound on
the number of steps; `splitOnL` supplies `s.length + 1`, which always
suffices for a nonempty separator. -/
def splitOnAuxL (sep : List Char) : Nat → List Char → List Char → List (List Char)
  | 0, acc, s => [acc.reverse ++ s]
  | fuel+1, acc, s =>
    if sep.isPrefixOf s then
      acc.reverse :: splitOnAuxL sep fuel [] (s.drop sep.length)
    else
      match s with
      | [] => [acc.reverse]
      | c :: rest => splitOnAuxL sep fuel (c :: acc) rest

/-- Python `s.split(sep)` for a nonempty separator `sep`. -/
def splitOnL (s sep : List Char) : List (List Char) :=
  splitOnAuxL sep (s.length + 1) [] s

/-- JSON values, the payloads of the uJson wire protocol. -/
inductive JVal where
  | null : JVal
  | bool (b : Bool) : JVal
  | num (n : Int) : JVal
  | str (s : List Char) : JVal
  | arr (elems : List JVal) : JVal
  | obj (members : List (List Char × JVal)) : JVal

/-- Whitespace recognised by the JSON grammar. -/
def isWsChar (c : Char) : Bool :=
  c = ' ' || c = '\t' || c = '\n' || c = '\r'

/-- Drop leading JSON whitespace. -/
def skipWs (s : List Char) : List Char :=
  s.dropWhile isWsChar

/-- Decimal digit test. -/
def isDigitChar (c : Char) : Bool :=
  '0' ≤ c && c ≤ '9'

/-- Numeric value of a decimal digit. -/
def digitVal (c : Char) : Nat :=
  c.toNat - '0'.toNat

/-- Read a maximal run of decimal digits, accumulating their value. -/
def parseDigits : List Char → Nat → (Nat × List Char)
  | [], acc => (acc, [])
  | c :: rest, acc =>
    if isDigitChar c then parseDigits rest (10 * acc + digitVal c)
    else (acc, c :: rest)

/-- Read a JSON string body up to the closing quote (escape sequences are
outside the modelled fragment and make the parse fail). -/
def parseStringBody : List Char → Option (List Char × List Char)
  | [] => none
  | c :: rest =>
    if c = '"' then some ([], rest)
    else if c = '\\' then none
    else
      match parseStringBody rest with
      | some (cs, r) => some (c :: cs, r)
      | none => none

/-- Parser modes: a single value, the remaining elements of an array, or
the remaining members of an object (each with the part already read). -/
inductive PMode where
  | value : PMode
  | arrElems (acc : List JVal) : PMode
  | objElems (acc : List (List Char × JVal)) : PMode

/-- Recursive-descent JSON parser, fuel-indexed so that it is structurally
recursive and kernel-reducible.  Returns the parsed value and the unread
remainder of the input. -/
def parseAux : Nat → PMode → List Char → Option (JVal × List Char)
  | 0, _, _ => none
  | fuel+1, PMode.value, s =>
    match skipWs s with
    | [] => none
    | c :: rest =>
      if c = '\x7b' then parseAux fuel (PMode.objElems []) rest
      else if c = '[' then parseAux fuel (PMode.arrElems []) rest
      else if c = '"' then
        match parseStringBody rest with
        | some (cs, r) => some (JVal.str cs, r)
        | none => none
      else if c = 't' then
        if ("rue".toList).isPrefixOf rest then some (JVal.bool true, rest.drop 3)
        else none
      else if c = 'f' then
        if ("alse".toList).isPrefixOf rest then some (JVal.bool false, rest.drop 4)
        else none
      else if c = 'n' then
        if ("ull".toList).isPrefixOf rest then some (JVal.null, rest.drop 3)
        else none
      else if c = '-' then
        match rest with
        | d :: _ =>
          if isDigitChar d then
            let p := parseDigits rest 0
            some (JVal.num (-(p.1 : Int)), p.2)
          else none
        | [] => none
      else if isDigitChar c then
        let p := parseDigits (c :: rest) 0
        some (JVal.num (p.1 : Int), p.2)
      else none
  | fuel+1, PMode.arrElems acc, s =>
    match skipWs s with
    | [] => none
    | c :: rest =>
      if c = ']' then some (JVal.arr acc.reverse, rest)
      else
        match acc with
        | [] =>
          match parseAux fuel PMode.value (c :: rest) with
          | some (v, r) => parseAux fuel (PMode.arrElems [v]) r
          | none => none
        | _ :: _ =>
          if c = ',' then
            match parseAux fuel PMode.value rest with
            | some (v, r) => parseAux fuel (PMode.arrElems (v :: acc)) r
            | none => none
          else none
  | fuel+1, PMode.objElems acc, s =>
    match skipWs s with
    | [] => none
    | c :: rest =>
      if c = '\x7d' then some (JVal.obj acc.reverse, rest)
      else
        match acc with
        | [] =>
          if c = '"' then
            match parseStringBody rest with
            | some (k, r1) =>
              match skipWs r1 with
              | ':' :: r2 =>
                match parseAux fuel PMode.value r2 with
                | some (v, r3) => parseAux fuel (PMode.objElems [(k, v)]) r3
                | none => none
              | _ => none
            | none => none
          else none
        | _ :: _ =>
          if c = ',' then
            match skipWs rest with
            | '"' :: r0 =>
              match parseStringBody r0 with
              | some (k, r1) =>
                match skipWs r1 with
                | ':' :: r2 =>
                  match parseAux fuel PMode.value r2 with
                  | some (v, r3) => parseAux fuel (PMode.objElems ((k, v) :: acc)) r3
                  | none => none
                | _ => none
              | none => none
            | _ => none
          else none

/-- Python `json.loads`: parse one JSON value and require that nothing but
whitespace follows it. -/
def jsonLoads (s : List Char) : Option JVal :=
  match parseAux (2 * s.length + 8) PMode.value s with
  | some (v, rest) => if (skipWs rest).isEmpty then some v else none
  | none => none

/-- Dictionary lookup with Python semantics (`json.loads` keeps the last
binding of a duplicated key, so the lookup prefers later members). -/
def lookupLast : List (List Char × JVal) → List Char → Option JVal
  | [], _ => none
  | kv :: rest, key =>
    match lookupLast rest key with
    | some r => some r
    | none => if kv.1 = key then some kv.2 else none

/-- Python `obj["result"]`-style subscript: succeeds only on a JSON object
that has the key (a `KeyError` or `TypeError` is reported as `none`). -/
def jsonGetKey (v : JVal) (key : List Char) : Option JVal :=
  match v with
  | JVal.obj members => lookupLast members key
  | _ => none

/-- Acknowledgement marker searched for in each read line
(`"RESP_OK" in read_line`). -/
def respOkMarker : List Char := "RESP_OK".toList

/-- Separator used to cut off the prefix of the response body
(`read_line.split("RESP_OK:")`). -/
def respOkColon : List Char := "RESP_OK:".toList

/-- Separator used to cut off the checksum suffix of the response body
(`.split(" CRC:")`). -/
def crcSep : List Char := " CRC:".toList

/-- Key of the answer payload inside the response body. -/
def resultKey : List Char := "result".toList

/-- Errors surfaced by the OTMLDSA read loops: `desync` is the raised
`Exception("Acknowledge error: Device and host not in sync")`, and
`indexError` is the uncaught `IndexError` that `split("RESP_OK:")[1]`
raises when a line contains `RESP_OK` but not `RESP_OK:`. -/
inductive PyErr where
  | desync : PyErr
  | indexError : PyErr

/-- Python expression
`read_line.split("RESP_OK:")[1].split(" CRC:")[0]` computing the JSON
body of a response line; `none` models the `IndexError` case. -/
def extractJsonString (line : List Char) : Option (List Char) :=
  match (splitOnL line respOkColon)[1]? with
  | some s => some ((splitOnL s crcSep).headD [])
  | none => none

/-- Loop body of `OTMLDSA.ml_dsa_sca_read_response`.  One fuel unit per
loop iteration; reading past the end of the stream yields a marker-free
line, so only the read counter advances there.  A marker line whose body
contains the substring `result` either returns the payload or raises the
desynchronisation error; a marker line whose body lacks `result` falls
through without touching the read counter. -/
def readResponseAux (numAttempts : Nat) : Nat → Nat → List (List Char) → Except PyErr JVal
  | 0, _, _ => Except.error PyErr.desync
  | fuel+1, readCounter, lines =>
    if readCounter < numAttempts then
      match lines with
      | [] => readResponseAux numAttempts fuel (readCounter + 1) []
      | line :: rest =>
        if hasSub line respOkMarker then
          match extractJsonString line with
          | none => Except.error PyErr.indexError
          | some jsonString =>
            if hasSub jsonString resultKey then
              match jsonLoads jsonString with
              | none => Except.error PyErr.desync
              | some v =>
                match jsonGetKey v resultKey with
                | some r => Except.ok r
                | none => Except.error PyErr.desync
            else readResponseAux numAttempts fuel readCounter rest
        else readResponseAux numAttempts fuel (readCounter + 1) rest
    else Except.error PyErr.desync

/-- Python `OTMLDSA.ml_dsa_sca_read_response(num_attempts)` reading from
the given line stream.  Every loop iteration either consumes a stream
line or (once the stream is exhausted) advances the read counter, so
`lines.length + numAttempts + 1` fuel covers every reachable iteration. -/
def mlDsaScaReadResponse (lines : List (List Char)) (numAttempts : Nat) : Except PyErr JVal :=
  readResponseAux numAttempts (lines.length + numAttempts + 1) 0 lines

/-- Loop of `OTMLDSA.read_response` (the strict variant): the counter
advances on every consumed line (`it += 1` is unconditional there), a
marker line returns the raw body immediately, and exhausting the budget
returns the empty string. -/
def readResponseStrictAux : Nat → List (List Char) → Except PyErr (List Char)
  | 0, _ => Except.ok []
  | remaining+1, lines =>
    match lines with
    | [] => readResponseStrictAux remaining []
    | line :: rest =>
      if hasSub line respOkMarker then
        match extractJsonString line with
        | some s => Except.ok s
        | none => Except.error PyErr.indexError
      else readResponseStrictAux remaining rest

/-- Python `OTMLDSA.read_response(max_tries)` reading from the given line
stream.  The `while it != max_tries` loop runs exactly `max_tries`
iterations unless a marker line returns first. -/
def readResponseStrict (lines : List (List Char)) (maxTries : Nat) : Except PyErr (List Char) :=
  readResponseStrictAux maxTries lines

/-- Maximum Husky sampling rate, `SAMPLING_RATE_MAX = 200e6`. -/
def samplingRateMax : ℚ := 200000000

/-- Python `int(x)` on a float: truncation toward zero. -/
def pyInt (q : ℚ) : ℤ :=
  if q < 0 then ⌈q⌉ else ⌊q⌋

/-- Timing state computed by `Husky.__init__` (the fields the constructor
assigns, in source order). -/
structure HuskyPlan where
  scope_gain : ℚ
  clkgen_freq : ℚ
  adc_mul : ℤ
  sampling_rate : ℚ
  target_freq : ℚ
  offset_samples : ℤ
  num_samples : ℤ
  num_segments : ℤ

/-- Python `Husky.__init__(scope_gain, num_cycles, num_segments,
offset_cycles, pll_frequency, target_clk_mult)`.  The constructor
validates nothing: the only failures are the two `ZeroDivisionError`s
(modelled as `none`) when `pll_frequency` or the derived target frequency
is zero.  `SAMPLING_RATE_MAX // pll_frequency` is float floor division,
`int(...)` truncates toward zero, and `num_samples` is rounded up to the
next multiple of 3 when not already divisible. -/
def huskyInit (scope_gain num_cycles : ℚ) (num_segments : ℤ)
    (offset_cycles pll_frequency target_clk_mult : ℚ) : Option HuskyPlan :=
  if pll_frequency = 0 then none
  else
    let adc_mul : ℤ := ⌊samplingRateMax / pll_frequency⌋
    let sampling_rate : ℚ := pll_frequency * (adc_mul : ℚ)
    let target_freq : ℚ := pll_frequency * target_clk_mult
    if target_freq = 0 then none
    else
      let sampling_target_ratio : ℚ := sampling_rate / target_freq
      let offset_samples : ℤ := pyInt (offset_cycles * sampling_target_ratio)
      let raw_samples : ℤ := pyInt (num_cycles * sampling_target_ratio)
      let num_samples : ℤ :=
        if raw_samples % 3 ≠ 0 then raw_samples + 3 - raw_samples % 3 else raw_samples
      some { scope_gain := scope_gain
             clkgen_freq := pll_frequency
             adc_mul := adc_mul
             sampling_rate := sampling_rate
             target_freq := target_freq
             offset_samples := offset_samples
             num_samples := num_samples
             num_segments := num_segments }

/-- Error raised by `Husky.initialize_scope` when the ADC never locks:
`RuntimeError(f'ADC failed to lock (attempts: {ping_cnt}).')`. -/
inductive ScopeErr where
  | adcLockTimeout : ScopeErr

/-- ADC-lock polling loop of `Husky.initialize_scope`: probe
`scope.clock.adc_locked` (probe number `ping_cnt`); on success leave the
loop, on failure raise once `ping_cnt` reaches 3, otherwise sleep and
retry.  One fuel unit per loop iteration. -/
def adcLockWait (adc_locked : Nat → Bool) : Nat → Nat → Except ScopeErr Unit
  | 0, _ => Except.error ScopeErr.adcLockTimeout
  | fuel+1, ping_cnt =>
    if adc_locked ping_cnt then Except.ok ()
    else if ping_cnt = 3 then Except.error ScopeErr.adcLockTimeout
    else adcLockWait adc_locked fuel (ping_cnt + 1)

/-- Lock phase of `Husky.initialize_scope`, started with `ping_cnt = 0`.
The loop probes at most at `ping_cnt = 0, 1, 2, 3`, so 5 fuel units cover
every reachable iteration; `Except.ok ()` models falling through to
`self.scope = scope`, binding the configured instrument. -/
def initializeScopeAdcLock (adc_locked : Nat → Bool) : Except ScopeErr Unit :=
  adcLockWait adc_locked 5 0

/-- Target-done polling loop of `Husky.capture_and_transfer_waves` in
single-segment mode: `while not target.is_done(): i += 1; sleep;
if i > 100: print warning`.  The loop has no exit besides the probe
turning true, so the result is `(some i, warnings)` when probe `i`
reports done within `fuel` iterations and `(none, warnings)` when the
loop is still running after `fuel` iterations; `warnings` counts the
warning lines printed so far. -/
def targetDonePoll (is_done : Nat → Bool) : Nat → Nat → Nat → (Option Nat × Nat)
  | 0, _, warnings => (none, warnings)
  | fuel+1, i, warnings =>
    if is_done i then (some i, warnings)
    else targetDonePoll is_done fuel (i + 1) (if i + 1 > 100 then warnings + 1 else warnings)

/-- Decimal digits of an integer, modelling Python `json.dumps` of an
`int`. -/
def intChars (n : Int) : List Char :=
  if n < 0 then '-' :: Nat.toDigits 10 n.natAbs else Nat.toDigits 10 n.natAbs

/-- Interleave a separator between chunks. -/
def joinSep (sep : List Char) : List (List Char) → List Char
  | [] => []
  | [x] => x
  | x :: y :: rest => x ++ sep ++ joinSep sep (y :: rest)

/-- Python `json.dumps` of a string without escape-worthy characters:
wrap it in double quotes. -/
def jsonDumpsStr (s : List Char) : List Char :=
  '"' :: (s ++ ['"'])

/-- Python `json.dumps` of a list of ints, with the default `", "`
separator. -/
def jsonDumpsIntList (xs : List Int) : List Char :=
  '[' :: (joinSep (", ".toList) (xs.map intChars) ++ [']'])

/-- Python `json.dumps` of the FVSR payload dict
`{"data": data, "data_length": dl, "iterations": iters}` with the
default `", "` / `": "` separators and insertion-ordered keys. -/
def jsonDumpsVecPayload (data : List Int) (data_length iterations : Int) : List Char :=
  "\x7b\"data\": ".toList ++ jsonDumpsIntList data ++
    ", \"data_length\": ".toList ++ intChars data_length ++
    ", \"iterations\": ".toList ++ intChars iterations ++ "\x7d".toList

/-- Python `OTMLDSA.ml_dsa_vec_add_batch_fvsr(data, num_segments)`: the
frames written to the serial transport, in order — the mode selector from
`_ujson_ml_dsa_sca_cmd` (`json.dumps("MlDsaSca")`), the operation tag
(`json.dumps("VecAddFvsr")`), and the payload dict with
`data_length = 4*len(data)` and `iterations = num_segments`. -/
def mlDsaVecAddBatchFvsr (data : List Int) (num_segments : Int) : List (List Char) :=
  [jsonDumpsStr ("MlDsaSca".toList),
   jsonDumpsStr ("VecAddFvsr".toList),
   jsonDumpsVecPayload data (4 * (data.length : Int)) num_segments]

/-- Python `OTMLDSA.init()` on the uJson protocol path: writes the mode
selector and the `"Init"` command, then returns
`read_response(max_tries=30)` on the given response stream. -/
def otMlDsaInit (lines : List (List Char)) : List (List Char) × Except PyErr (List Char) :=
  ([jsonDumpsStr ("MlDsaSca".toList), jsonDumpsStr ("Init".toList)],
   readResponseStrict lines 30)

/-- Helper: while every line seen within the remaining attempt budget is
marker-free, `readResponseAux` always ends in the desynchronisation
error, for any fuel. -/
lemma readResponseAux_no_marker (n : Nat) :
    ∀ fuel counter lines,
      (∀ l ∈ lines.take (n - counter), hasSub l respOkMarker = false) →
      readResponseAux n fuel counter lines = Except.error PyErr.desync := by
  intro fuel
  induction fuel with
  | zero => intro counter lines _; rfl
  | succ fuel ih =>
    intro counter lines h
    by_cases hc : counter < n
    · cases lines with
      | nil =>
        have step : readResponseAux n (fuel + 1) counter [] =
            readResponseAux n fuel (counter + 1) [] := by
          simp [readResponseAux, hc]
        rw [step]
        exact ih (counter + 1) [] (by simp)
      | cons l rest =>
        have hsub : n - counter = (n - (counter + 1)) + 1 := by omega
        have hl : hasSub l respOkMarker = false := by
          apply h
          rw [hsub, List.take_succ_cons]
          exact List.mem_cons_self _ _
        have step : readResponseAux n (fuel + 1) counter (l :: rest) =
            readResponseAux n fuel (counter + 1) rest := by
          simp [readResponseAux, hc, hl]
        rw [step]
        refine ih (counter + 1) rest fun l' hl' => h l' ?_
        rw [hsub, List.take_succ_cons]
        exact List.mem_cons_of_mem _ hl'
    · simp [readResponseAux, hc]

/-- Claim C4: if no line contains the acknowledgement marker `RESP_OK`
within the first `maxAttempts` lines of the stream, then
`ml_dsa_sca_read_response` raises the desynchronisation error and never
returns a (partial or empty) result. -/
theorem ml_dsa_sca_read_response_no_marker_desync
    (lines : List (List Char)) (maxAttempts : Nat) (hpos : 0 < maxAttempts)
    (hnomark : ∀ l ∈ lines.take maxAttempts, hasSub l respOkMarker = false) :
    mlDsaScaReadResponse lines maxAttempts = Except.error PyErr.desync := by
  unfold mlDsaScaReadResponse
  exact readResponseAux_no_marker maxAttempts _ 0 lines (by simpa using hnomark)

/-- A marker-free serial line used to exercise the retry budgets. -/
def noiseLine : List Char := "boot console noise".toList

/-- Witness for claim C4 at a concrete one-line stream and `maxAttempts = 100`. -/
theorem ml_dsa_sca_read_response_no_marker_desync_witness :
    mlDsaScaReadResponse [noiseLine] 100 = Except.error PyErr.desync :=
  ml_dsa_sca_read_response_no_marker_desync [noiseLine] 100 (by norm_num) (by decide)

/-- Claim C8: on a line that contains the marker, only the substring
between `RESP_OK:` and ` CRC:` (the `extractJsonString` of the line) is
parsed as the response body, and the value stored under its `result` key
is returned by `ml_dsa_sca_read_response`. -/
theorem ml_dsa_sca_read_response_result_extraction
    (l : List Char) (rest : List (List Char)) (n : Nat) (body : List Char) (j v : JVal)
    (hn : 0 < n) (hm : hasSub l respOkMarker = true)
    (he : extractJsonString l = some body) (hr : hasSub body resultKey = true)
    (hj : jsonLoads body = some j) (hk : jsonGetKey j resultKey = some v) :
    mlDsaScaReadResponse (l :: rest) n = Except.ok v := by
  have hf : (l :: rest).length + n + 1 = (rest.length + n + 1) + 1 := by
    simp [List.length_cons]
    omega
  unfold mlDsaScaReadResponse
  rw [hf]
  simp [readResponseAux, hn, hm, he, hr, hj, hk]

/-- Response line of the claim C8 scenario,
`junk RESP_OK:{"result":42} CRC:abc`. -/
def junkResultLine : List Char := "junk RESP_OK:\x7b\"result\":42\x7d CRC:abc".toList

/-- Witness for claim C8: the scenario line yields the payload 42. -/
theorem ml_dsa_sca_read_response_result_extraction_witness :
    mlDsaScaReadResponse [junkResultLine] 100 = Except.ok (JVal.num 42) :=
  ml_dsa_sca_read_response_result_extraction junkResultLine [] 100
    ("\x7b\"result\":42\x7d".toList)
    (JVal.obj [("result".toList, JVal.num 42)]) (JVal.num 42)
    (by norm_num) rfl rfl rfl rfl rfl

/-- Marker line of the claim C1 scenario, `RESP_OK:{not-json} CRC:x`:
its body is not parseable JSON and does not contain the substring
`result`. -/
def notJsonLine : List Char := "RESP_OK:\x7bnot-json\x7d CRC:x".toList

/-- Later well-formed response line, `RESP_OK:{"result":42} CRC:y`. -/
def laterResultLine : List Char := "RESP_OK:\x7b\"result\":42\x7d CRC:y".toList

/-- Counterexample to claim C1 as stated: on a stream whose first line is
exactly the claim scenario `RESP_OK:{not-json} CRC:x`,
`ml_dsa_sca_read_response` does not fail with the desynchronisation
error on that line — it silently skips it, consumes a further read
attempt, and returns the payload of the next line. -/
theorem ml_dsa_sca_read_response_not_json_skipped_cex :
    mlDsaScaReadResponse [notJsonLine, laterResultLine] 100 = Except.ok (JVal.num 42) ∧
    mlDsaScaReadResponse [notJsonLine, laterResultLine] 100 ≠ Except.error PyErr.desync := by
  constructor
  · rfl
  · intro hcontra
    rw [show mlDsaScaReadResponse [notJsonLine, laterResultLine] 100 =
          Except.ok (JVal.num 42) from rfl] at hcontra
    exact Except.noConfusion hcontra

/-- Claim C1 as amended: a marker line whose extracted body contains the
substring `result` but is not parseable as JSON makes
`ml_dsa_sca_read_response` fail immediately with the desynchronisation
error, on that line, without consuming further read attempts.  (A marker
line whose body lacks the substring `result`, such as the original
scenario `RESP_OK:{not-json} CRC:x`, is instead skipped without even
advancing the read counter.) -/
theorem ml_dsa_sca_read_response_unparseable_result_body_desync
    (l : List Char) (rest : List (List Char)) (n : Nat) (body : List Char)
    (hn : 0 < n) (hm : hasSub l respOkMarker = true)
    (he : extractJsonString l = some body) (hr : hasSub body resultKey = true)
    (hj : jsonLoads body = none) :
    mlDsaScaReadResponse (l :: rest) n = Except.error PyErr.desync := by
  have hf : (l :: rest).length + n + 1 = (rest.length + n + 1) + 1 := by
    simp [List.length_cons]
    omega
  unfold mlDsaScaReadResponse
  rw [hf]
  simp [readResponseAux, hn, hm, he, hr, hj]

/-- Marker line whose body `{result-bad}` contains the substring
`result` but is not valid JSON. -/
def resultBadLine : List Char := "RESP_OK:\x7bresult-bad\x7d CRC:x".toList

/-- Witness for the amended claim C1 at a concrete line. -/
theorem ml_dsa_sca_read_response_unparseable_result_body_desync_witness :
    mlDsaScaReadResponse [resultBadLine] 100 = Except.error PyErr.desync :=
  ml_dsa_sca_read_response_unparseable_result_body_desync resultBadLine [] 100
    ("\x7bresult-bad\x7d".toList) (by norm_num) rfl rfl rfl rfl

/-- Helper: while every consumed line is marker-free, the strict
`read_response` loop ends by returning the empty string. -/
lemma readResponseStrictAux_no_marker :
    ∀ maxTries lines,
      (∀ l ∈ lines.take maxTries, hasSub l respOkMarker = false) →
      readResponseStrictAux maxTries lines = Except.ok [] := by
  intro maxTries
  induction maxTries with
  | zero => intro lines _; rfl
  | succ m ih =>
    intro lines h
    cases lines with
    | nil =>
      have step : readResponseStrictAux (m + 1) [] = readResponseStrictAux m [] := by
        simp [readResponseStrictAux]
      rw [step]
      exact ih [] (by simp)
    | cons l rest =>
      have hl : hasSub l respOkMarker = false := by
        apply h
        rw [List.take_succ_cons]
        exact List.mem_cons_self _ _
      have step : readResponseStrictAux (m + 1) (l :: rest) =
          readResponseStrictAux m rest := by
        simp [readResponseStrictAux, hl]
      rw [step]
      refine ih rest fun l' hl' => h l' ?_
      rw [List.take_succ_cons]
      exact List.mem_cons_of_mem _ hl'

/-- Claim C10: the strict read variant `read_response` that finds no
`RESP_OK` line within `max_tries` lines returns the empty string rather
than raising, and its caller `init` therefore returns an empty device
identifier (its `max_tries` budget is 30) instead of a
desynchronisation error. -/
theorem read_response_no_marker_returns_empty
    (lines : List (List Char)) (maxTries : Nat) (hpos : 1 ≤ maxTries)
    (hnomark : ∀ l ∈ lines.take maxTries, hasSub l respOkMarker = false) :
    readResponseStrict lines maxTries = Except.ok [] ∧
    ((∀ l ∈ lines.take 30, hasSub l respOkMarker = false) →
      (otMlDsaInit lines).2 = Except.ok []) := by
  constructor
  · exact readResponseStrictAux_no_marker maxTries lines hnomark
  · intro h30
    exact readResponseStrictAux_no_marker 30 lines h30

/-- Witness for claim C10 at a concrete one-line stream. -/
theorem read_response_no_marker_returns_empty_witness :
    readResponseStrict [noiseLine] 30 = Except.ok [] ∧
    (otMlDsaInit [noiseLine]).2 = Except.ok [] := by
  have h := read_response_no_marker_returns_empty [noiseLine] 30 (by norm_num) (by decide)
  exact ⟨h.1, h.2 (by decide)⟩

set_option maxRecDepth 8000 in
/-- Claim C2 (refutation of the spec behaviour): if the target never
reports done, the single-mode polling loop of
`Husky.capture_and_transfer_waves` never exits — the loop body contains
no break, so even arbitrarily far past the 100-iteration warning
threshold the call has not returned (first conjunct, for every fuel
bound); instead it keeps printing the warning on every further
iteration (second conjunct: after 202 probes, 102 warning lines have
been printed). -/
theorem capture_and_transfer_poll_never_returns :
    (∀ fuel i warnings, (targetDonePoll (fun _ => false) fuel i warnings).1 = none) ∧
    (targetDonePoll (fun _ => false) 202 0 0).2 = 102 := by
  constructor
  · intro fuel
    induction fuel with
    | zero => intro i w; rfl
    | succ f ih =>
      intro i w
      simp only [targetDonePoll, Bool.false_eq_true, if_false]
      exact ih _ _
  · rfl

/-- Claim C9: the ADC-lock wait of `Husky.initialize_scope` is bounded by
the fixed ceiling `ping_cnt = 3`: a stream that never reports locked
fails with the lock-timeout error, and a stream that reports locked at
some probe within the budget lets the initialization succeed and bind
the scope. -/
theorem initialize_scope_adc_lock_bounded (adc_locked : Nat → Bool) :
    ((∀ i, i ≤ 3 → adc_locked i = false) →
      initializeScopeAdcLock adc_locked = Except.error ScopeErr.adcLockTimeout) ∧
    ((∃ i, i ≤ 3 ∧ adc_locked i = true) →
      initializeScopeAdcLock adc_locked = Except.ok ()) := by
  constructor
  · intro h
    simp [initializeScopeAdcLock, adcLockWait,
      h 0 (by omega), h 1 (by omega), h 2 (by omega), h 3 (by omega)]
  · rintro ⟨i, hi, hl⟩
    interval_cases i
    · simp [initializeScopeAdcLock, adcLockWait, hl]
    · cases h0 : adc_locked 0 <;>
        simp [initializeScopeAdcLock, adcLockWait, h0, hl]
    · cases h0 : adc_locked 0 <;> cases h1 : adc_locked 1 <;>
        simp [initializeScopeAdcLock, adcLockWait, h0, h1, hl]
    · cases h0 : adc_locked 0 <;> cases h1 : adc_locked 1 <;> cases h2 : adc_locked 2 <;>
        simp [initializeScopeAdcLock, adcLockWait, h0, h1, h2, hl]

/-- Witness for claim C9: an ADC that never locks times out. -/
theorem initialize_scope_adc_lock_bounded_witness :
    initializeScopeAdcLock (fun _ => false) = Except.error ScopeErr.adcLockTimeout :=
  (initialize_scope_adc_lock_bounded (fun _ => false)).1 (fun _ _ => rfl)

/-- Payload frame produced for the claim C7 scenario (Python
`json.dumps` output with its default separators). -/
def vecAddPayloadFrame : List Char :=
  "\x7b\"data\": [1, 2, 3, 4], \"data_length\": 16, \"iterations\": 10\x7d".toList

/-- Claim C7: `ml_dsa_vec_add_batch_fvsr([1,2,3,4], 10)` writes exactly
three frames, in order the mode-selector tag `"MlDsaSca"`, the operation
tag `"VecAddFvsr"`, and the payload frame; the payload frame decodes to
the JSON object with `data = [1,2,3,4]`,
`data_length = 16 = 4 * element count` and `iterations = 10`. -/
theorem ml_dsa_vec_add_batch_fvsr_frames :
    mlDsaVecAddBatchFvsr [1, 2, 3, 4] 10 =
      ["\"MlDsaSca\"".toList, "\"VecAddFvsr\"".toList, vecAddPayloadFrame] ∧
    jsonLoads vecAddPayloadFrame =
      some (JVal.obj
        [("data".toList, JVal.arr [JVal.num 1, JVal.num 2, JVal.num 3, JVal.num 4]),
         ("data_length".toList, JVal.num 16),
         ("iterations".toList, JVal.num 10)]) :=
  ⟨rfl, rfl⟩

/-- Plan computed by `Husky.__init__` for the scenario
`scope_gain=1, num_cycles=100, num_segments=1, offset_cycles=0,
pll_frequency=48e6, target_clk_mult=2`. -/
def plan48 : HuskyPlan :=
  { scope_gain := 1, clkgen_freq := 48000000, adc_mul := 4, sampling_rate := 192000000,
    target_freq := 96000000, offset_samples := 0, num_samples := 201, num_segments := 1 }

/-- Helper: evaluation of `Husky.__init__` on the 48 MHz scenario. -/
lemma husky_init_48_eval : huskyInit 1 100 1 0 48000000 2 = some plan48 := by
  have h4 : ⌊samplingRateMax / (48000000 : ℚ)⌋ = (4 : ℤ) := by
    rw [Int.floor_eq_iff]
    constructor <;> norm_num [samplingRateMax]
  simp only [huskyInit, h4]
  norm_num [pyInt, plan48]

/-- Claim C5: the 48 MHz scenario yields `adc_mul = 4`,
`sampling_rate = 192e6`, `target_freq = 96e6` and `num_samples = 201`
(the fields of `plan48`), a sampling-to-target ratio of 2, and a raw
sample count of 200 before the round-up to the next multiple of 3. -/
theorem husky_init_48mhz_scenario :
    huskyInit 1 100 1 0 48000000 2 = some plan48 ∧
    (48000000 : ℚ) * ((⌊samplingRateMax / (48000000 : ℚ)⌋ : ℤ) : ℚ) / (48000000 * 2) = 2 ∧
    pyInt (100 * ((48000000 : ℚ) * ((⌊samplingRateMax / (48000000 : ℚ)⌋ : ℤ) : ℚ) /
      (48000000 * 2))) = 200 := by
  have h4 : ⌊samplingRateMax / (48000000 : ℚ)⌋ = (4 : ℤ) := by
    rw [Int.floor_eq_iff]
    constructor <;> norm_num [samplingRateMax]
  refine ⟨husky_init_48_eval, ?_, ?_⟩ <;> rw [h4] <;> norm_num [pyInt]

/-- Plan computed by `Husky.__init__` when the requested PLL frequency
(400 MHz) exceeds the maximum sampling rate: a degenerate plan with
`adc_mul = 0` and `num_samples = 0`, produced without any error. -/
def plan400 : HuskyPlan :=
  { scope_gain := 1, clkgen_freq := 400000000, adc_mul := 0, sampling_rate := 0,
    target_freq := 800000000, offset_samples := 0, num_samples := 0, num_segments := 1 }

/-- Counterexample to claim C3 as stated: with
`pll_frequency = 400e6 > maxSamplingRate` the derived `adc_mul` is
`0 < 1` and the derived `num_samples` is `0`, yet the construction does
not fail — it returns a full set of timing constants. -/
theorem husky_init_no_configuration_error_cex :
    huskyInit 1 100 1 0 400000000 2 = some plan400 ∧
    plan400.adc_mul < 1 ∧ plan400.num_samples ≤ 0 := by
  have h0 : ⌊samplingRateMax / (400000000 : ℚ)⌋ = (0 : ℤ) := by
    rw [Int.floor_eq_iff]
    constructor <;> norm_num [samplingRateMax]
  refine ⟨?_, by norm_num [plan400], by norm_num [plan400]⟩
  simp only [huskyInit, h0]
  norm_num [pyInt, plan400]

/-- Claim C3 as amended: `Husky.__init__` performs no validation at all.
Whenever the two divisions it evaluates are defined (`pll_frequency` and
the derived target frequency nonzero) the construction succeeds and
produces timing constants, even when `adc_mul < 1` or the derived sample
count is not positive; a zero `pll_frequency` or target frequency fails
with a `ZeroDivisionError`, not a `ConfigurationError`. -/
theorem husky_init_no_validation (g nc : ℚ) (ns : ℤ) (oc pll m : ℚ)
    (hp : pll ≠ 0) (htf : pll * m ≠ 0) :
    (huskyInit g nc ns oc pll m).isSome = true := by
  simp [huskyInit, hp, htf]

/-- Witness for the amended claim C3 at the degenerate 400 MHz input. -/
theorem husky_init_no_validation_witness :
    (huskyInit 1 100 1 0 400000000 2).isSome = true :=
  husky_init_no_validation 1 100 1 0 400000000 2 (by norm_num) (by norm_num)

/-- Claim C6: for valid inputs (`0 < pll_frequency ≤ maxSamplingRate`,
positive cycle count, positive clock multiplier), every plan produced by
`Husky.__init__` has a non-negative `num_samples` divisible by the
segment divisor 3, and a `sampling_rate` of at most the maximum sampling
rate. -/
theorem husky_init_invariants (g nc : ℚ) (ns : ℤ) (oc pll m : ℚ)
    (hp : 0 < pll) (hmax : pll ≤ samplingRateMax) (hnc : 0 < nc) (hm : 0 < m)
    (p : HuskyPlan) (hinit : huskyInit g nc ns oc pll m = some p) :
    0 ≤ p.num_samples ∧ p.num_samples % 3 = 0 ∧ p.sampling_rate ≤ samplingRateMax := by
  have hp0 : pll ≠ 0 := ne_of_gt hp
  have htf : pll * m ≠ 0 := ne_of_gt (mul_pos hp hm)
  simp only [huskyInit, if_neg hp0, if_neg htf, Option.some.injEq] at hinit
  subst hinit
  have hfl : (1 : ℤ) ≤ ⌊samplingRateMax / pll⌋ := by
    rw [Int.le_floor]
    push_cast
    rw [le_div_iff₀ hp]
    linarith
  have hflq : (1 : ℚ) ≤ (⌊samplingRateMax / pll⌋ : ℚ) := by exact_mod_cast hfl
  have hsr : pll * (⌊samplingRateMax / pll⌋ : ℚ) ≤ samplingRateMax := by
    calc pll * (⌊samplingRateMax / pll⌋ : ℚ) ≤ pll * (samplingRateMax / pll) :=
          mul_le_mul_of_nonneg_left (Int.floor_le _) (le_of_lt hp)
      _ = samplingRateMax := by field_simp
  have hratio : 0 < pll * (⌊samplingRateMax / pll⌋ : ℚ) / (pll * m) :=
    div_pos (mul_pos hp (by linarith)) (mul_pos hp hm)
  have hrawq : 0 ≤ nc * (pll * (⌊samplingRateMax / pll⌋ : ℚ) / (pll * m)) :=
    le_of_lt (mul_pos hnc hratio)
  have hraw : 0 ≤ pyInt (nc * (pll * (⌊samplingRateMax / pll⌋ : ℚ) / (pll * m))) := by
    unfold pyInt
    rw [if_neg (not_lt.mpr hrawq)]
    exact Int.floor_nonneg.mpr hrawq
  refine ⟨?_, ?_, ?_⟩
  · simp only
    set r := pyInt (nc * (pll * (⌊samplingRateMax / pll⌋ : ℚ) / (pll * m))) with hr
    by_cases h3 : r % 3 ≠ 0 <;> simp [h3] <;> omega
  · simp only
    set r := pyInt (nc * (pll * (⌊samplingRateMax / pll⌋ : ℚ) / (pll * m))) with hr
    by_cases h3 : r % 3 ≠ 0 <;> simp [h3] <;> omega
  · simpa using hsr

/-- Witness for claim C6 at the 48 MHz scenario. -/
theorem husky_init_invariants_witness :
    0 ≤ plan48.num_samples ∧ plan48.num_samples % 3 = 0 ∧
      plan48.sampling_rate ≤ samplingRateMax :=
  husky_init_invariants 1 100 1 0 48000000 2 (by norm_num)
    (by norm_num [samplingRateMax]) (by norm_num) (by norm_num) plan48 husky_init_48_eval
